import Mathlib

/-!
Shallow embedding of `b2sdk/replication/setup.py` (class `ReplicationSetupHelper`)
from the b2-sdk-python repository, together with the collaborator data model the
helper manipulates (buckets, application keys, replication settings).

The helper itself lives in `src/b2sdk/replication/setup.py` and is embedded
function by function.  Its collaborators (`b2sdk/replication/setting.py`,
`b2sdk/bucket.py`, `b2sdk/api.py`, `b2sdk/application_key.py`) are not part of
the sources; their data model is modelled from the specification, as noted on
each declaration.

Conventions of the embedding:
* Python objects become Lean structures; Python `None` becomes `Option.none`.
* Attribute access on `None` raises `AttributeError`; fallible embedded
  functions therefore return `Except PyErr _` and propagate that error
  exactly where the Python code would raise it.
* External effects are modelled explicitly: `B2Api.get_key` and
  `B2Api.create_key` are function-valued fields of the `B2Api` environment,
  and a `bucket.update(if_revision_is=..., replication=...)` call is embedded
  as the `UpdateCall` record of the arguments the helper submits.
* Python identifiers are kept, except that parameters and fields whose names
  end in reserved words of this development are abbreviated (`pfx` for the
  path-restriction parameter, `name_pfx` for the key field).
-/

namespace B2Repl

/-- The only Python exception the embedded code itself can raise:
attribute access on `None`. -/
inductive PyErr where
  | attributeError
deriving DecidableEq

/-- Modelled from the spec: `ApplicationKey` has fields `id_`,
`name_prefix : optional string` (here `name_pfx`) and `capabilities : set of string`
(section 3 of the design). -/
structure ApplicationKey where
  id_ : String
  name_pfx : Option String
  capabilities : List String
deriving DecidableEq

/-- Modelled from the spec: `ApplicationKey.has_capabilities(required)` is a plain
set-containment test over the capability strings (design note, section 9). -/
def ApplicationKey.has_capabilities (key : ApplicationKey) (required : List String) : Bool :=
  required.all (fun c => key.capabilities.contains c)

/-- Truthiness of a Python optional string: `None` and the empty string are falsy,
any non-empty string is truthy.  Used for `if key.name_prefix:` tests. -/
def optStrTruthy : Option String → Bool
  | none => false
  | some s => !s.isEmpty

/-- Modelled from the spec: `ReplicationRule` with
`{ name, priority, destination_bucket_id, file_name_prefix, include_existing_files }`
(section 3; `file_name_prefix` is abbreviated `file_name_pfx`).
Priorities are Python integers, embedded as `Int`. -/
structure ReplicationRule where
  name : String
  priority : Int
  destination_bucket_id : String
  file_name_pfx : String
  include_existing_files : Bool
deriving DecidableEq

/-- Modelled from the spec: `ReplicationSourceConfiguration` with an optional
`source_application_key_id` and an ordered sequence of rules (section 3). -/
structure ReplicationSourceConfiguration where
  source_application_key_id : Option String
  rules : List ReplicationRule
deriving DecidableEq

/-- Modelled from the spec: `ReplicationDestinationConfiguration` holds
`source_to_destination_key_mapping`, a mapping from source key id to destination
key id (section 3).  A Python `dict` is embedded as an association list in
insertion order with pairwise distinct keys maintained by `dictSet`. -/
structure ReplicationDestinationConfiguration where
  source_to_destination_key_mapping : List (String × String)
deriving DecidableEq

/-- Modelled from the spec: `ReplicationConfiguration` pairs an optional source
configuration and an optional destination configuration (section 3). -/
structure ReplicationConfiguration where
  as_replication_source : Option ReplicationSourceConfiguration
  as_replication_destination : Option ReplicationDestinationConfiguration
deriving DecidableEq

/-- The arguments of an `api.create_key(capabilities, key_name, bucket_id, name_prefix)`
call, in the order of the keyword arguments passed by `_create_key`. -/
structure CreateKeyRequest where
  capabilities : List String
  key_name : String
  bucket_id : String
  name_pfx : Option String
deriving DecidableEq

/-- Modelled from the spec: the `B2Api` gateway offers
`get_key(key_id) -> ApplicationKey | None` and
`create_key(...) -> ApplicationKey` (section 6).  Both are environment
functions; `get_key` also accepts `None` because `_get_source_key` passes the
possibly-absent `source_application_key_id` through unchecked. -/
structure B2Api where
  get_key : Option String → Option ApplicationKey
  create_key : CreateKeyRequest → ApplicationKey

/-- Modelled from the spec: a `Bucket` record with read-only fields `id_`, `name`,
`revision`, an optional `ReplicationConfiguration` and its `api` gateway
(section 6). -/
structure Bucket where
  api : B2Api
  id_ : String
  name : String
  revision : Nat
  replication : Option ReplicationConfiguration

/-- The observable effect of `bucket.update(if_revision_is=..., replication=...)`:
the revision token and the replication configuration the helper submits. -/
structure UpdateCall where
  if_revision_is : Nat
  replication : ReplicationConfiguration
deriving DecidableEq

/-- Python dict assignment `m[k] = v`: overwrite the entry in place when the key
is present (iteration order preserved), append a new entry otherwise. -/
def dictSet (m : List (String × String)) (k v : String) : List (String × String) :=
  if m.any (fun kv => kv.1 == k) then
    m.map (fun kv => if kv.1 == k then (k, v) else kv)
  else
    m ++ [(k, v)]

/-- Python dict lookup `m.get(k)`: the value of the first entry with key `k`. -/
def dictGet (m : List (String × String)) (k : String) : Option String :=
  (m.find? (fun kv => kv.1 == k)).map (fun kv => kv.2)

namespace ReplicationSetupHelper

/-- `PRIORITY_OFFSET`: how far to put the new rule from the existing rules. -/
def PRIORITY_OFFSET : Int := 5

/-- Modelled from the spec: `ReplicationRule.DEFAULT_PRIORITY`, re-exported by the
helper as the priority used when no rules preexist.  Its numeric value is not
shown in the embedded source; the spec constrains priorities to
`[1, MAX_PRIORITY]` and we use the concrete in-range default 128. -/
def DEFAULT_PRIORITY : Int := 128

/-- `ReplicationRule.MAX_PRIORITY`, re-exported by the helper.  The source comment
in `_get_priority_for_new_rule` fixes the bound: "max is 2**31-1". -/
def MAX_PRIORITY : Int := 2 ^ 31 - 1

/-- `DEFAULT_SOURCE_CAPABILITIES` from the helper class body. -/
def DEFAULT_SOURCE_CAPABILITIES : List String :=
  ["readFiles", "readFileLegalHolds", "readFileRetentions"]

/-- `DEFAULT_DESTINATION_CAPABILITIES` from the helper class body. -/
def DEFAULT_DESTINATION_CAPABILITIES : List String :=
  ["writeFiles", "writeFileLegalHolds", "writeFileRetentions", "deleteFiles"]

/-- `_create_key(name, bucket, prefix, capabilities)`: submit a key-creation
request to the bucket api. -/
def _create_key (name : String) (bucket : Bucket) (pfx : Option String)
    (capabilities : List String) : ApplicationKey :=
  bucket.api.create_key ⟨capabilities, name, bucket.id_, pfx⟩

/-- `_create_source_key(name, bucket, prefix)`: the caller-supplied restriction is
deliberately dropped (`prefix = None` in the source body) and the key is created
with `DEFAULT_SOURCE_CAPABILITIES` and no restriction. -/
def _create_source_key (name : String) (bucket : Bucket) (_pfx : Option String) :
    ApplicationKey :=
  _create_key name bucket none DEFAULT_SOURCE_CAPABILITIES

/-- `_create_destination_key(name, bucket, prefix)`. -/
def _create_destination_key (name : String) (bucket : Bucket) (pfx : Option String) :
    ApplicationKey :=
  _create_key name bucket pfx DEFAULT_DESTINATION_CAPABILITIES

/-- `_should_make_new_source_key(current_replication_configuration, current_source_key)`.
The first test dereferences `current_replication_configuration.as_replication_source`,
so a missing configuration or a missing source part raises `AttributeError`. -/
def _should_make_new_source_key
    (current_replication_configuration : Option ReplicationConfiguration)
    (current_source_key : Option ApplicationKey) : Except PyErr Bool :=
  match current_replication_configuration with
  | none => .error .attributeError
  | some cfg =>
    match cfg.as_replication_source with
    | none => .error .attributeError
    | some src =>
      if src.source_application_key_id.isNone then
        .ok true
      else
        match current_source_key with
        | none => .ok true
        | some key =>
          if optStrTruthy key.name_pfx then
            .ok true
          else if !key.has_capabilities DEFAULT_SOURCE_CAPABILITIES then
            .ok true
          else
            .ok false

/-- `_get_source_key(source_bucket, prefix, current_replication_configuration,
current_source_rules)`.  The argument of the `api.get_key` call dereferences
`current_replication_configuration.as_replication_source`, raising
`AttributeError` when either is `None`; the Python annotation promises an
`ApplicationKey` but the reuse branch returns `current_source_key` as-is, so the
payload is kept optional. -/
def _get_source_key (source_bucket : Bucket) (pfx : String)
    (current_replication_configuration : Option ReplicationConfiguration)
    (_current_source_rules : List ReplicationRule) :
    Except PyErr (Option ApplicationKey) :=
  let api := source_bucket.api
  match current_replication_configuration with
  | none => .error .attributeError
  | some cfg =>
    match cfg.as_replication_source with
    | none => .error .attributeError
    | some src =>
      let current_source_key := api.get_key src.source_application_key_id
      match _should_make_new_source_key current_replication_configuration
          current_source_key with
      | .error e => .error e
      | .ok do_create_key =>
        if !do_create_key then
          .ok current_source_key
        else
          .ok (some (_create_source_key (source_bucket.name.take 91 ++ "-replisrc")
            source_bucket (some pfx)))

/-- `max(rr.priority for rr in current_rules)` over a non-empty rule list. -/
def maxRulePriority (r : ReplicationRule) (rs : List ReplicationRule) : Int :=
  match rs with
  | [] => r.priority
  | s :: ss => max r.priority (maxRulePriority s ss)

/-- `_get_priority_for_new_rule(current_rules, priority)`. -/
def _get_priority_for_new_rule (current_rules : List ReplicationRule)
    (priority : Option Int) : Int :=
  match priority with
  | some p => p
  | none =>
    match current_rules with
    | [] => DEFAULT_PRIORITY
    | r :: rs => min (maxRulePriority r rs + PRIORITY_OFFSET) MAX_PRIORITY

/-- The suffix stream `map(str, itertools.chain([''], itertools.count(2)))` of
`_get_rule_name_candidate_suffixes`, indexed by position: the 0-th suffix is the
empty string and the following ones are the decimal numerals from 2 on. -/
def ruleNameSuffix : Nat → String
  | 0 => ""
  | n + 1 => Nat.repr (n + 2)

/-- The `while True` candidate loop of `_get_new_rule_name`, iterating from
suffix position `i`, with explicit fuel: `none` means the fuel ran out with the
loop still running.  `findRuleNameFrom_isSome` below proves that fuel
`existing.length + 1` always suffices, so the fuelled loop coincides with the
unbounded Python loop. -/
def findRuleNameFrom (existing : List String) (dest : String) : Nat → Nat → Option String
  | _, 0 => none
  | i, fuel + 1 =>
    let candidate := dest ++ ruleNameSuffix i
    if candidate ∈ existing then
      findRuleNameFrom existing dest (i + 1) fuel
    else
      some candidate

/-- `_get_new_rule_name(current_rules, destination_bucket, name)`.  The fallback
of the final match is unreachable: `findRuleNameFrom_isSome` shows the loop
returns within `existing.length + 1` iterations. -/
def _get_new_rule_name (current_rules : List ReplicationRule)
    (destination_bucket : Bucket) (name : Option String) : String :=
  match name with
  | some n => n
  | none =>
    let existing := current_rules.map (fun rr => rr.name)
    match findRuleNameFrom existing destination_bucket.name 0 (existing.length + 1) with
    | some candidate => candidate
    | none => destination_bucket.name

/-- The matching test of the destination-key scan:
`current_destination_key.has_capabilities(DEFAULT_DESTINATION_CAPABILITIES) and
not current_destination_key.name_prefix`. -/
def goodDestinationKey (key : ApplicationKey) : Bool :=
  key.has_capabilities DEFAULT_DESTINATION_CAPABILITIES && !optStrTruthy key.name_pfx

/-- The `for current_destination_key_id in current_destination_key_ids` loop of
`_get_destination_key`, carrying its two mutable locals: the `keys_to_purge`
accumulator and the last matching `key` seen so far. -/
def destinationKeyLoop (api : B2Api) (keys_to_purge : List String)
    (key : Option ApplicationKey) : List String → List String × Option ApplicationKey
  | [] => (keys_to_purge, key)
  | i :: ids =>
    match api.get_key (some i) with
    | none => destinationKeyLoop api (keys_to_purge ++ [i]) key ids
    | some current_destination_key =>
      if goodDestinationKey current_destination_key then
        destinationKeyLoop api keys_to_purge (some current_destination_key) ids
      else
        destinationKeyLoop api keys_to_purge key ids

/-- `_get_destination_key(api, destination_bucket, destination_configuration)`:
scan the mapped destination key ids, then reuse the last match or create a new
unrestricted destination key. -/
def _get_destination_key (api : B2Api) (destination_bucket : Bucket)
    (destination_configuration : ReplicationDestinationConfiguration) :
    List String × ApplicationKey :=
  let current_destination_key_ids :=
    destination_configuration.source_to_destination_key_mapping.map (fun kv => kv.2)
  match destinationKeyLoop api [] none current_destination_key_ids with
  | (keys_to_purge, some key) => (keys_to_purge, key)
  | (keys_to_purge, none) =>
    (keys_to_purge,
      _create_destination_key (destination_bucket.name.take 91 ++ "-replidst")
        destination_bucket none)

/-- The `try: source_bucket.replication.as_replication_source.rules
except (NameError, AttributeError): []` read at the top of `setup_source`. -/
def currentSourceRules (source_bucket : Bucket) : List ReplicationRule :=
  match source_bucket.replication with
  | none => []
  | some cfg =>
    match cfg.as_replication_source with
    | none => []
    | some src => src.rules

/-- The `try: source_bucket.replication.as_replication_destination
except (NameError, AttributeError): None` read at the top of `setup_source`. -/
def currentDestinationConfiguration (source_bucket : Bucket) :
    Option ReplicationDestinationConfiguration :=
  match source_bucket.replication with
  | none => none
  | some cfg => cfg.as_replication_destination

/-- `setup_source(source_bucket, destination_bucket, prefix, name, priority,
include_existing_files)`: the observable outcome is the conditional-update call
submitted on the source bucket, or the propagated exception.  Accessing
`source_key.id_` on a `None` key would raise `AttributeError`; the branch order
differs from the Python text only in pure, effect-free computations. -/
def setup_source (source_bucket : Bucket) (destination_bucket : Bucket)
    (pfx : Option String) (name : Option String) (priority : Option Int)
    (include_existing_files : Bool) : Except PyErr UpdateCall :=
  let pfx := pfx.getD ""
  let current_source_rules := currentSourceRules source_bucket
  let destination_configuration := currentDestinationConfiguration source_bucket
  match _get_source_key source_bucket pfx source_bucket.replication
      current_source_rules with
  | .error e => .error e
  | .ok source_key =>
    let priority := _get_priority_for_new_rule current_source_rules priority
    let name := _get_new_rule_name current_source_rules destination_bucket name
    let new_rr : ReplicationRule :=
      ⟨name, priority, destination_bucket.id_, pfx, include_existing_files⟩
    match source_key with
    | none => .error .attributeError
    | some key =>
      .ok ⟨source_bucket.revision,
        ⟨some ⟨some key.id_, current_source_rules ++ [new_rr]⟩,
          destination_configuration⟩⟩

/-- The source-side configuration read at the top of `setup_destination`:
`None` when the bucket has no replication or no source part. -/
def sourceConfigurationOfBucket (b : Bucket) : Option ReplicationSourceConfiguration :=
  match b.replication with
  | none => none
  | some r => r.as_replication_source

/-- The destination-side configuration read at the top of `setup_destination`:
`ReplicationDestinationConfiguration({})` when absent. -/
def destinationConfigurationOrEmpty (b : Bucket) : ReplicationDestinationConfiguration :=
  match b.replication with
  | none => ⟨[]⟩
  | some r =>
    match r.as_replication_destination with
    | none => ⟨[]⟩
    | some d => d

/-- `setup_destination(source_key_id, destination_bucket)`: resolve or create the
destination key, set the mapping entry for `source_key_id`, and submit the
conditional update.  The `keys_to_purge` list returned by the scan is unused,
exactly as in the source. -/
def setup_destination (source_key_id : String) (destination_bucket : Bucket) :
    UpdateCall :=
  let api := destination_bucket.api
  let source_configuration := sourceConfigurationOfBucket destination_bucket
  let destination_configuration := destinationConfigurationOrEmpty destination_bucket
  let scan := _get_destination_key api destination_bucket destination_configuration
  let destination_key := scan.2
  let destination_configuration : ReplicationDestinationConfiguration :=
    ⟨dictSet destination_configuration.source_to_destination_key_mapping
      source_key_id destination_key.id_⟩
  ⟨destination_bucket.revision, ⟨source_configuration, some destination_configuration⟩⟩

end ReplicationSetupHelper

/-- The decimal digit list of a natural number, most significant digit first,
defined by structural division; used to reason about `Nat.repr`. -/
def natDecDigits (n : Nat) : List Char :=
  if n < 10 then [Nat.digitChar n]
  else natDecDigits (n / 10) ++ [Nat.digitChar (n % 10)]
decreasing_by exact Nat.div_lt_self (by omega) (by omega)

section DemoValues

open ReplicationSetupHelper

/-- A source key with no restriction and the default source capabilities. -/
def demoGoodSourceKey : ApplicationKey :=
  ⟨"src-key-1", none, DEFAULT_SOURCE_CAPABILITIES⟩

/-- An api on which no key resolves and key creation echoes the request. -/
def demoEmptyApi : B2Api :=
  ⟨fun _ => none, fun req => ⟨"new-key-id", req.name_pfx, req.capabilities⟩⟩

/-- An api that resolves exactly the id of `demoGoodSourceKey`. -/
def demoLookupApi : B2Api :=
  ⟨fun i => if i == some "src-key-1" then some demoGoodSourceKey else none,
    fun req => ⟨"new-key-id", req.name_pfx, req.capabilities⟩⟩

/-- A fresh source bucket: no replication configuration at all. -/
def demoEmptyBucket : Bucket := ⟨demoEmptyApi, "src-bucket-id", "src-bucket", 3, none⟩

/-- A destination bucket named "dest-1" with no replication configuration. -/
def demoDestBucket : Bucket := ⟨demoEmptyApi, "dest-bucket-id", "dest-1", 4, none⟩

/-- A source configuration that has a source part but no key id set. -/
def demoNoKeyCfg : ReplicationConfiguration := ⟨some ⟨none, []⟩, none⟩

/-- A source bucket with a source part but no key id set. -/
def demoNoKeyBucket : Bucket :=
  ⟨demoEmptyApi, "src-bucket-id", "src-bucket", 3, some demoNoKeyCfg⟩

/-- A replication configuration whose source part references `demoGoodSourceKey`. -/
def demoCfgWithKey : ReplicationConfiguration := ⟨some ⟨some "src-key-1", []⟩, none⟩

/-- A source bucket carrying `demoCfgWithKey`, with the resolving api. -/
def demoLookupBucket : Bucket :=
  ⟨demoLookupApi, "src-bucket-id", "src-bucket", 5, some demoCfgWithKey⟩

/-- An existing rule named "dest-1". -/
def demoRuleDest1 : ReplicationRule := ⟨"dest-1", 1, "dest-bucket-id", "", false⟩

/-- An existing rule named "dest-12". -/
def demoRuleDest12 : ReplicationRule := ⟨"dest-12", 3, "dest-bucket-id", "", false⟩

/-- The update call `setup_source` submits for `demoNoKeyBucket` and
`demoDestBucket` with all optional arguments absent. -/
def demoCall8 : UpdateCall :=
  ⟨3, ⟨some ⟨some "new-key-id", [⟨"dest-1", 128, "dest-bucket-id", "", false⟩]⟩, none⟩⟩

/-- A destination bucket holding one mapping entry whose destination key id no
longer resolves. -/
def demoMappedDestBucket : Bucket :=
  ⟨demoEmptyApi, "dest-bucket-id", "dest-1", 6,
    some ⟨none, some ⟨[("other-src-key", "dst-key-1")]⟩⟩⟩

end DemoValues

/-! ## Helper lemmas

First the arithmetic of decimal string representations, establishing that the
candidate rule names are pairwise distinct; then the behaviour of the embedded
loops and of the dictionary operations. -/

theorem natDecDigits_lt (n : Nat) (h : n < 10) : natDecDigits n = [Nat.digitChar n] := by
  unfold natDecDigits
  simp [h]

theorem natDecDigits_ge (n : Nat) (h : ¬ n < 10) :
    natDecDigits n = natDecDigits (n / 10) ++ [Nat.digitChar (n % 10)] := by
  conv_lhs => unfold natDecDigits
  simp [h]

theorem natDecDigits_ne_nil (n : Nat) : natDecDigits n ≠ [] := by
  unfold natDecDigits
  split
  · simp
  · simp

theorem toDigitsCore_eq_natDecDigits (fuel n : Nat) (ds : List Char) (h : n < fuel) :
    Nat.toDigitsCore 10 fuel n ds = natDecDigits n ++ ds := by
  induction fuel generalizing n ds with
  | zero => omega
  | succ f ih =>
    unfold Nat.toDigitsCore
    by_cases h10 : n / 10 = 0
    · have hn : n < 10 := by omega
      simp only [h10, if_pos rfl]
      rw [natDecDigits_lt n hn, Nat.mod_eq_of_lt hn]
      rfl
    · have hn : ¬ n < 10 := by omega
      have hf : n / 10 < f := by omega
      simp only [h10, if_neg h10]
      rw [ih (n / 10) _ hf, natDecDigits_ge n hn, List.append_assoc]
      rfl

theorem repr_eq_natDecDigits (n : Nat) : Nat.repr n = (natDecDigits n).asString := by
  show (Nat.toDigits 10 n).asString = _
  rw [Nat.toDigits, toDigitsCore_eq_natDecDigits (n + 1) n [] (Nat.lt_succ_self n),
    List.append_nil]

theorem digitChar_inj10 : ∀ m < 10, ∀ n < 10, Nat.digitChar m = Nat.digitChar n → m = n := by
  decide

theorem natDecDigits_inj : ∀ m n : Nat, natDecDigits m = natDecDigits n → m = n := by
  intro m
  induction m using Nat.strong_induction_on with
  | _ m ih =>
    intro n h
    by_cases hm : m < 10 <;> by_cases hn : n < 10
    · rw [natDecDigits_lt m hm, natDecDigits_lt n hn] at h
      exact digitChar_inj10 m hm n hn (by simpa using h)
    · rw [natDecDigits_lt m hm, natDecDigits_ge n hn] at h
      have hlen := congrArg List.length h
      have h1 : (natDecDigits (n / 10)).length ≠ 0 := by
        simpa using natDecDigits_ne_nil (n / 10)
      simp only [List.length_append, List.length_cons, List.length_nil] at hlen
      omega
    · rw [natDecDigits_ge m hm, natDecDigits_lt n hn] at h
      have hlen := congrArg List.length h
      have h1 : (natDecDigits (m / 10)).length ≠ 0 := by
        simpa using natDecDigits_ne_nil (m / 10)
      simp only [List.length_append, List.length_cons, List.length_nil] at hlen
      omega
    · rw [natDecDigits_ge m hm, natDecDigits_ge n hn] at h
      have hlen : ([Nat.digitChar (m % 10)] : List Char).length =
          ([Nat.digitChar (n % 10)] : List Char).length := by simp
      obtain ⟨h1, h2⟩ := List.append_inj' h hlen
      have hdiv : m / 10 = n / 10 :=
        ih (m / 10) (Nat.div_lt_self (by omega) (by omega)) (n / 10) h1
      have hmod : m % 10 = n % 10 := by
        apply digitChar_inj10 (m % 10) (Nat.mod_lt m (by omega)) (n % 10)
          (Nat.mod_lt n (by omega))
        simpa using h2
      omega

theorem natRepr_inj (m n : Nat) (h : Nat.repr m = Nat.repr n) : m = n := by
  apply natDecDigits_inj
  have hd := congrArg String.data h
  rw [repr_eq_natDecDigits, repr_eq_natDecDigits] at hd
  simpa [List.asString] using hd

theorem natRepr_ne_empty (n : Nat) : Nat.repr n ≠ "" := by
  rw [repr_eq_natDecDigits]
  intro h
  have hd := congrArg String.data h
  simp only [List.asString] at hd
  exact natDecDigits_ne_nil n (by simpa using hd)

namespace ReplicationSetupHelper

theorem ruleNameSuffix_inj : Function.Injective ruleNameSuffix := by
  intro i j h
  match i, j with
  | 0, 0 => rfl
  | 0, j + 1 => exact absurd h.symm (natRepr_ne_empty (j + 2))
  | i + 1, 0 => exact absurd h (natRepr_ne_empty (i + 2))
  | i + 1, j + 1 =>
    have := natRepr_inj (i + 2) (j + 2) h
    omega

theorem ruleNameCandidate_inj (dest : String) :
    Function.Injective (fun i => dest ++ ruleNameSuffix i) := by
  intro i j h
  apply ruleNameSuffix_inj
  have hd := congrArg String.data h
  simp only [String.data_append] at hd
  exact String.ext (List.append_cancel_left hd)

theorem findRuleNameFrom_none (existing : List String) (dest : String) :
    ∀ (fuel i : Nat), findRuleNameFrom existing dest i fuel = none →
      ∀ k, k < fuel → (dest ++ ruleNameSuffix (i + k)) ∈ existing := by
  intro fuel
  induction fuel with
  | zero => intro i _ k hk; omega
  | succ f ih =>
    intro i h k hk
    rw [findRuleNameFrom] at h
    by_cases hmem : (dest ++ ruleNameSuffix i) ∈ existing
    · simp only [hmem, if_pos] at h
      match k with
      | 0 => simpa using hmem
      | k + 1 =>
        have := ih (i + 1) h k (by omega)
        simpa [Nat.add_assoc, Nat.add_comm 1 k] using this
    · simp [hmem] at h

theorem findRuleNameFrom_isSome (existing : List String) (dest : String) :
    (findRuleNameFrom existing dest 0 (existing.length + 1)).isSome = true := by
  rw [Option.isSome_iff_ne_none]
  intro h
  have hall : ∀ k, k < existing.length + 1 → (dest ++ ruleNameSuffix k) ∈ existing := by
    intro k hk
    simpa using findRuleNameFrom_none existing dest (existing.length + 1) 0 h k hk
  have hsub : ((List.range (existing.length + 1)).map
      (fun i => dest ++ ruleNameSuffix i)) ⊆ existing := by
    intro x hx
    simp only [List.mem_map, List.mem_range] at hx
    obtain ⟨k, hk, rfl⟩ := hx
    exact hall k hk
  have hnodup : ((List.range (existing.length + 1)).map
      (fun i => dest ++ ruleNameSuffix i)).Nodup :=
    (List.nodup_range _).map (ruleNameCandidate_inj dest)
  have hle := (hnodup.subperm hsub).length_le
  simp only [List.length_map, List.length_range] at hle
  omega

theorem findRuleNameFrom_some_spec (existing : List String) (dest : String) :
    ∀ (fuel i : Nat) (s : String), findRuleNameFrom existing dest i fuel = some s →
      ∃ k, i ≤ k ∧ s = dest ++ ruleNameSuffix k ∧ s ∉ existing ∧
        ∀ j, i ≤ j → j < k → (dest ++ ruleNameSuffix j) ∈ existing := by
  intro fuel
  induction fuel with
  | zero => intro i s h; simp [findRuleNameFrom] at h
  | succ f ih =>
    intro i s h
    rw [findRuleNameFrom] at h
    by_cases hmem : (dest ++ ruleNameSuffix i) ∈ existing
    · simp only [hmem, if_pos] at h
      obtain ⟨k, hik, hs, hnot, hall⟩ := ih (i + 1) s h
      refine ⟨k, by omega, hs, hnot, ?_⟩
      intro j hij hjk
      rcases Nat.eq_or_lt_of_le hij with rfl | hij2
      · exact hmem
      · exact hall j (by omega) hjk
    · simp only [hmem, if_neg, not_false_iff, reduceIte] at h
      injection h with h2
      subst h2
      exact ⟨i, le_refl i, rfl, hmem, by intro j h1 h2; omega⟩

theorem maxRulePriority_mem (r : ReplicationRule) (rs : List ReplicationRule) :
    maxRulePriority r rs ∈ (r :: rs).map ReplicationRule.priority := by
  induction rs generalizing r with
  | nil => simp [maxRulePriority]
  | cons s ss ih =>
    rw [maxRulePriority]
    rcases max_cases r.priority (maxRulePriority s ss) with ⟨heq, _⟩ | ⟨heq, _⟩ <;> rw [heq]
    · simp
    · have hm := ih s
      simp only [List.map_cons, List.mem_cons] at hm ⊢
      tauto

theorem le_maxRulePriority (r : ReplicationRule) (rs : List ReplicationRule) :
    ∀ q ∈ (r :: rs).map ReplicationRule.priority, q ≤ maxRulePriority r rs := by
  induction rs generalizing r with
  | nil =>
    intro q hq
    simp only [List.map_cons, List.map_nil, List.mem_singleton] at hq
    simp [maxRulePriority, hq]
  | cons s ss ih =>
    intro q hq
    rw [maxRulePriority]
    simp only [List.map_cons, List.mem_cons] at hq
    rcases hq with rfl | hq
    · exact le_max_left _ _
    · exact le_trans (ih s q (by simpa using hq)) (le_max_right _ _)

theorem getLast?_or_cons (x : ApplicationKey) (l : List ApplicationKey)
    (key : Option ApplicationKey) :
    ((x :: l).getLast?).or key = (l.getLast?).or (some x) := by
  cases l with
  | nil => rfl
  | cons b bs =>
    rw [List.getLast?_cons_cons]
    rw [List.getLast?_eq_getLast (b :: bs) (by simp)]
    rfl

theorem destinationKeyLoop_spec (api : B2Api) :
    ∀ (ids : List String) (acc : List String) (key : Option ApplicationKey),
      destinationKeyLoop api acc key ids =
        (acc ++ ids.filter (fun i => (api.get_key (some i)).isNone),
          ((ids.filterMap (fun i => (api.get_key (some i)).bind
            (fun k => if goodDestinationKey k then some k else none))).getLast?).or key) := by
  intro ids
  induction ids with
  | nil => intro acc key; simp [destinationKeyLoop]
  | cons i ids ih =>
    intro acc key
    rw [destinationKeyLoop]
    cases hget : api.get_key (some i) with
    | none =>
      rw [ih]
      simp [List.filter_cons, List.filterMap_cons, hget]
    | some k =>
      dsimp only
      by_cases hgood : goodDestinationKey k
      · rw [if_pos hgood, ih]
        simp only [List.filter_cons, List.filterMap_cons, hget, Option.isNone_some,
          Bool.false_eq_true, if_false, Option.some_bind, hgood, if_pos]
        rw [getLast?_or_cons]
      · rw [if_neg hgood, ih]
        simp [List.filter_cons, List.filterMap_cons, hget, hgood]

theorem dictGet_overwrite_self (m : List (String × String)) (k v : String)
    (hany : m.any (fun kv => kv.1 == k)) :
    dictGet (m.map (fun kv => if kv.1 == k then (k, v) else kv)) k = some v := by
  induction m with
  | nil => simp at hany
  | cons a as ih =>
    simp only [List.any_cons, Bool.or_eq_true] at hany
    by_cases ha : a.1 == k
    · rw [List.map_cons, if_pos ha, dictGet, List.find?_cons]
      simp
    · simp only [List.map_cons, if_neg ha]
      rw [dictGet, List.find?_cons]
      simp only [ha]
      exact ih (by tauto)

theorem dictGet_overwrite_other (m : List (String × String)) (k v q : String)
    (h : q ≠ k) :
    dictGet (m.map (fun kv => if kv.1 == k then (k, v) else kv)) q = dictGet m q := by
  induction m with
  | nil => rfl
  | cons a as ih =>
    by_cases ha : a.1 == k
    · have hak : a.1 = k := by simpa using ha
      have haq : (a.1 == q) = false := by
        simp only [beq_eq_false_iff_ne, ne_eq, hak]
        exact fun hh => h hh.symm
      have hkq : (k == q) = false := by
        simp only [beq_eq_false_iff_ne, ne_eq]
        exact fun hh => h hh.symm
      rw [List.map_cons, if_pos ha, dictGet, dictGet, List.find?_cons, List.find?_cons]
      simp only [hkq, haq]
      exact ih
    · rw [List.map_cons, if_neg ha, dictGet, dictGet, List.find?_cons, List.find?_cons]
      cases haq : (a.1 == q) with
      | true => rfl
      | false => exact ih

theorem dictGet_append_self (m : List (String × String)) (k v : String)
    (hany : ¬ m.any (fun kv => kv.1 == k)) :
    dictGet (m ++ [(k, v)]) k = some v := by
  induction m with
  | nil => simp [dictGet, List.find?_cons]
  | cons a as ih =>
    simp only [List.any_cons, Bool.or_eq_true, not_or] at hany
    rw [List.cons_append, dictGet, List.find?_cons]
    have ha : (a.1 == k) = false := by
      simpa using hany.1
    simp only [ha]
    exact ih (by simpa using hany.2)

theorem dictGet_append_other (m : List (String × String)) (k v q : String)
    (h : q ≠ k) : dictGet (m ++ [(k, v)]) q = dictGet m q := by
  induction m with
  | nil =>
    have hkq : (k == q) = false := by
      simp only [beq_eq_false_iff_ne, ne_eq]
      exact fun hh => h hh.symm
    simp [dictGet, List.find?_cons, hkq]
  | cons a as ih =>
    rw [List.cons_append, dictGet, dictGet, List.find?_cons, List.find?_cons]
    cases haq : (a.1 == q) with
    | true => rfl
    | false => exact ih

theorem dictGet_dictSet_self (m : List (String × String)) (k v : String) :
    dictGet (dictSet m k v) k = some v := by
  rw [dictSet]
  by_cases hany : m.any (fun kv => kv.1 == k)
  · rw [if_pos hany]
    exact dictGet_overwrite_self m k v hany
  · rw [if_neg hany]
    exact dictGet_append_self m k v hany

theorem dictGet_dictSet_other (m : List (String × String)) (k v q : String)
    (h : q ≠ k) : dictGet (dictSet m k v) q = dictGet m q := by
  rw [dictSet]
  by_cases hany : m.any (fun kv => kv.1 == k)
  · rw [if_pos hany]
    exact dictGet_overwrite_other m k v q h
  · rw [if_neg hany]
    exact dictGet_append_other m k v q h

/-! ## Claim theorems -/

/-- Claim C1 (divergence evidence): for every source bucket whose replication
configuration is absent (`None`) and every destination bucket, `setup_source`
does not succeed: the unguarded dereference
`current_replication_configuration.as_replication_source` inside
`_get_source_key` raises `AttributeError`, although the claim promises a new
source key named `<bucket_name[:91]>-replisrc` and a rule named after the
destination bucket with `DEFAULT_PRIORITY`. -/
theorem c1_setup_source_raises_without_replication :
    ∀ (api : B2Api) (bucket_id bucket_name : String) (rev : Nat)
      (destination_bucket : Bucket) (pfx name : Option String)
      (priority : Option Int) (incl : Bool),
      setup_source ⟨api, bucket_id, bucket_name, rev, none⟩ destination_bucket
        pfx name priority incl = .error .attributeError := by
  intro api bucket_id bucket_name rev destination_bucket pfx name priority incl
  rfl

/-- Claim C2: `_get_priority_for_new_rule` returns an explicit priority verbatim
(no collision check or clamping); with no explicit priority it returns
`min(max(priorities) + PRIORITY_OFFSET, MAX_PRIORITY)` on a non-empty rule list
and `DEFAULT_PRIORITY` on an empty one. -/
theorem c2_priority_for_new_rule_spec :
    (∀ (current_rules : List ReplicationRule) (p : Int),
        _get_priority_for_new_rule current_rules (some p) = p) ∧
    (∀ (r : ReplicationRule) (rs : List ReplicationRule),
        ∃ m, m ∈ (r :: rs).map ReplicationRule.priority ∧
          (∀ q ∈ (r :: rs).map ReplicationRule.priority, q ≤ m) ∧
          _get_priority_for_new_rule (r :: rs) none =
            min (m + PRIORITY_OFFSET) MAX_PRIORITY) ∧
    _get_priority_for_new_rule [] none = DEFAULT_PRIORITY := by
  refine ⟨fun _ _ => rfl, fun r rs =>
    ⟨maxRulePriority r rs, maxRulePriority_mem r rs, le_maxRulePriority r rs, rfl⟩, rfl⟩

/-- Witness for C2 at a concrete input. -/
theorem c2_priority_witness : _get_priority_for_new_rule [] (some 42) = 42 :=
  c2_priority_for_new_rule_spec.1 [] 42

/-- Claim C3: `_get_new_rule_name` returns an explicit name verbatim (no
uniqueness check); otherwise it returns the first candidate
`destination_bucket.name ++ suffix` along the literal suffix sequence
`""`, `"2"`, `"3"`, ... that is not among the current rule names; with existing
names "dest-1" and "dest-12" and destination name "dest-1" the sequence yields
"dest-13". -/
theorem c3_new_rule_name_spec :
    (∀ (current_rules : List ReplicationRule) (b : Bucket) (n : String),
        _get_new_rule_name current_rules b (some n) = n) ∧
    (ruleNameSuffix 0 = "" ∧ ∀ i : Nat, ruleNameSuffix (i + 1) = Nat.repr (i + 2)) ∧
    (∀ (current_rules : List ReplicationRule) (b : Bucket),
        ∃ i, _get_new_rule_name current_rules b none = b.name ++ ruleNameSuffix i ∧
          (b.name ++ ruleNameSuffix i) ∉ current_rules.map (fun rr => rr.name) ∧
          ∀ j, j < i → (b.name ++ ruleNameSuffix j) ∈ current_rules.map (fun rr => rr.name)) ∧
    _get_new_rule_name [demoRuleDest1, demoRuleDest12] demoDestBucket none = "dest-13" := by
  refine ⟨fun _ _ _ => rfl, ⟨rfl, fun i => rfl⟩, ?_, by decide⟩
  intro current_rules b
  have hs := findRuleNameFrom_isSome (current_rules.map fun rr => rr.name) b.name
  rw [Option.isSome_iff_exists] at hs
  obtain ⟨s, hsome⟩ := hs
  obtain ⟨k, -, hcand, hnot, hall⟩ :=
    findRuleNameFrom_some_spec (current_rules.map fun rr => rr.name) b.name
      ((current_rules.map fun rr => rr.name).length + 1) 0 s hsome
  refine ⟨k, ?_, by rw [← hcand]; exact hnot, fun j hj => hall j (Nat.zero_le j) hj⟩
  simp only [_get_new_rule_name, hsome]
  exact hcand

/-- Witness for C3 at a concrete input: an explicit name is returned verbatim. -/
theorem c3_explicit_name_witness :
    _get_new_rule_name [] demoDestBucket (some "my-rule") = "my-rule" :=
  c3_new_rule_name_spec.1 [] demoDestBucket "my-rule"

/-- Claim C4: `_should_make_new_source_key` returns true exactly when no key id
is set, or the key does not resolve, or the key has a truthy name restriction,
or the key lacks one of `DEFAULT_SOURCE_CAPABILITIES`; in particular a
resolvable unrestricted key with sufficient capabilities is reused by
`_get_source_key` with no key creation. -/
theorem c4_should_make_new_source_key_iff
    (cfg : ReplicationConfiguration) (src : ReplicationSourceConfiguration)
    (key : Option ApplicationKey) (h : cfg.as_replication_source = some src) :
    (_should_make_new_source_key (some cfg) key = .ok true ↔
      src.source_application_key_id = none ∨ key = none ∨
      (∃ k, key = some k ∧ optStrTruthy k.name_pfx = true) ∨
      (∃ k, key = some k ∧ k.has_capabilities DEFAULT_SOURCE_CAPABILITIES = false)) ∧
    (∀ (b : Bucket) (p : String) (rules : List ReplicationRule) (i : String)
        (k : ApplicationKey),
      src.source_application_key_id = some i →
      b.api.get_key (some i) = some k →
      optStrTruthy k.name_pfx = false →
      k.has_capabilities DEFAULT_SOURCE_CAPABILITIES = true →
      _get_source_key b p (some cfg) rules = .ok (some k)) := by
  constructor
  · cases hid : src.source_application_key_id with
    | none => simp [_should_make_new_source_key, h, hid]
    | some i =>
      cases key with
      | none => simp [_should_make_new_source_key, h, hid]
      | some k =>
        by_cases hp : optStrTruthy k.name_pfx <;>
          by_cases hc : k.has_capabilities DEFAULT_SOURCE_CAPABILITIES <;>
          simp [_should_make_new_source_key, h, hid, hp, hc]
  · intro b p rules i k hid hget hp hc
    have hshould : _should_make_new_source_key (some cfg) (some k) = .ok false := by
      simp [_should_make_new_source_key, h, hid, hp, hc]
    simp [_get_source_key, h, hid, hget, hshould]

/-- Witness for C4: the demo api's good key is reused verbatim. -/
theorem c4_reuse_witness :
    _get_source_key demoLookupBucket "" (some demoCfgWithKey) [] =
      .ok (some demoGoodSourceKey) :=
  (c4_should_make_new_source_key_iff demoCfgWithKey ⟨some "src-key-1", []⟩
    (some demoGoodSourceKey) rfl).2 demoLookupBucket "" [] "src-key-1"
    demoGoodSourceKey rfl rfl rfl rfl

/-- Claim C5: whenever `_get_source_key` decides to create a key, the submitted
creation request names the key `<bucket_name[:91]>-replisrc`, carries exactly
`DEFAULT_SOURCE_CAPABILITIES` and no name restriction, for every caller-supplied
path restriction (the restriction is never applied to the key); moreover a key
with a truthy name restriction always triggers creation. -/
theorem c5_new_source_key_request
    (b : Bucket) (cfg : ReplicationConfiguration) (src : ReplicationSourceConfiguration)
    (h : cfg.as_replication_source = some src)
    (hmk : _should_make_new_source_key (some cfg)
        (b.api.get_key src.source_application_key_id) = .ok true) :
    (∀ (p : String) (rules : List ReplicationRule),
      _get_source_key b p (some cfg) rules =
        .ok (some (b.api.create_key
          ⟨DEFAULT_SOURCE_CAPABILITIES, b.name.take 91 ++ "-replisrc", b.id_, none⟩))) ∧
    (∀ k : ApplicationKey, optStrTruthy k.name_pfx = true →
      _should_make_new_source_key (some cfg) (some k) = .ok true) := by
  constructor
  · intro p rules
    simp [_get_source_key, h, hmk, _create_source_key, _create_key]
  · intro k hk
    cases hid : src.source_application_key_id with
    | none => simp [_should_make_new_source_key, h, hid]
    | some i => simp [_should_make_new_source_key, h, hid, hk]

/-- Witness for C5 at a concrete bucket with no key id set and a non-trivial
caller-supplied path restriction. -/
theorem c5_request_witness :
    _get_source_key demoNoKeyBucket "photos/" (some demoNoKeyCfg) [] =
      .ok (some (demoNoKeyBucket.api.create_key
        ⟨DEFAULT_SOURCE_CAPABILITIES, demoNoKeyBucket.name.take 91 ++ "-replisrc",
          demoNoKeyBucket.id_, none⟩)) :=
  (c5_new_source_key_request demoNoKeyBucket demoNoKeyCfg ⟨none, []⟩ rfl rfl).1
    "photos/" []

/-- Claim C6: `_get_destination_key` reports as stale exactly the mapped key ids
that do not resolve (never selected, never raised), selects the last resolvable
key in mapping iteration order that has all `DEFAULT_DESTINATION_CAPABILITIES`
and no name restriction, and when none matches creates a
`<bucket_name[:91]>-replidst` key with those capabilities and no restriction. -/
theorem c6_destination_key_spec (api : B2Api) (destination_bucket : Bucket)
    (destination_configuration : ReplicationDestinationConfiguration) :
    _get_destination_key api destination_bucket destination_configuration =
      (let ids := destination_configuration.source_to_destination_key_mapping.map
        (fun kv => kv.2)
       (ids.filter (fun i => (api.get_key (some i)).isNone),
        match (ids.filterMap (fun i => (api.get_key (some i)).bind
            (fun k => if goodDestinationKey k then some k else none))).getLast? with
        | some k => k
        | none => destination_bucket.api.create_key
            ⟨DEFAULT_DESTINATION_CAPABILITIES,
              destination_bucket.name.take 91 ++ "-replidst",
              destination_bucket.id_, none⟩)) := by
  rw [_get_destination_key, destinationKeyLoop_spec]
  rw [Option.or_none, List.nil_append]
  dsimp only
  cases hlast : (((destination_configuration.source_to_destination_key_mapping.map
      (fun kv => kv.2)).filterMap (fun i => (api.get_key (some i)).bind
        (fun k => if goodDestinationKey k then some k else none)))).getLast? with
  | some k => rfl
  | none => rfl

/-- Claim C7 counterexample: an explicit priority is returned verbatim even when
it lies outside `[1, MAX_PRIORITY]`: with no existing rules (every existing
priority vacuously in range) and explicit priority 0, the result is 0. -/
theorem c7_counterexample :
    _get_priority_for_new_rule [] (some 0) = 0 ∧
    ¬ (1 ≤ _get_priority_for_new_rule [] (some 0) ∧
        _get_priority_for_new_rule [] (some 0) ≤ MAX_PRIORITY) := by
  refine ⟨rfl, ?_⟩
  intro hcontra
  have h1 := hcontra.1
  norm_num [_get_priority_for_new_rule] at h1

/-- Claim C7 (amended): when the priority is computed, i.e. no explicit priority
is supplied, and every existing rule priority lies in `[1, MAX_PRIORITY]`, the
returned priority lies in `[1, MAX_PRIORITY]`. -/
theorem c7_computed_priority_in_bounds (current_rules : List ReplicationRule)
    (h : ∀ r ∈ current_rules, 1 ≤ r.priority ∧ r.priority ≤ MAX_PRIORITY) :
    1 ≤ _get_priority_for_new_rule current_rules none ∧
    _get_priority_for_new_rule current_rules none ≤ MAX_PRIORITY := by
  match current_rules with
  | [] =>
    constructor <;> norm_num [_get_priority_for_new_rule, DEFAULT_PRIORITY, MAX_PRIORITY]
  | r :: rs =>
    have hmem := maxRulePriority_mem r rs
    simp only [List.mem_map] at hmem
    obtain ⟨rr, hrr, hrrp⟩ := hmem
    have h1 : 1 ≤ maxRulePriority r rs := hrrp ▸ (h rr hrr).1
    have hoff : PRIORITY_OFFSET = 5 := rfl
    have hmaxpos : (1 : Int) ≤ MAX_PRIORITY := by norm_num [MAX_PRIORITY]
    have heq : _get_priority_for_new_rule (r :: rs) none =
        min (maxRulePriority r rs + PRIORITY_OFFSET) MAX_PRIORITY := rfl
    rw [heq]
    refine ⟨le_min (by omega) hmaxpos, min_le_right _ _⟩

/-- Witness for C7 (amended) at a concrete input. -/
theorem c7_bounds_witness :
    1 ≤ _get_priority_for_new_rule [] none ∧
    _get_priority_for_new_rule [] none ≤ MAX_PRIORITY :=
  c7_computed_priority_in_bounds [] (by simp)

/-- Claim C8: whenever `setup_source` succeeds, the submitted replication
configuration keeps every pre-existing rule, unchanged and in order, followed by
exactly one new rule, and carries the bucket's pre-existing destination-side
configuration unchanged. -/
theorem c8_setup_source_frame
    (source_bucket destination_bucket : Bucket) (pfx name : Option String)
    (priority : Option Int) (incl : Bool) (call : UpdateCall)
    (h : setup_source source_bucket destination_bucket pfx name priority incl = .ok call) :
    (∃ key_id new_rr,
        call.replication.as_replication_source =
          some ⟨some key_id, currentSourceRules source_bucket ++ [new_rr]⟩) ∧
    call.replication.as_replication_destination =
      currentDestinationConfiguration source_bucket := by
  simp only [setup_source] at h
  cases hk : _get_source_key source_bucket (pfx.getD "") source_bucket.replication
      (currentSourceRules source_bucket) with
  | error e => rw [hk] at h; simp at h
  | ok source_key =>
    rw [hk] at h
    cases source_key with
    | none => simp at h
    | some key =>
      simp only [Except.ok.injEq] at h
      subst h
      exact ⟨⟨key.id_, _, rfl⟩, rfl⟩

/-- Witness for C8 at a concrete successful call. -/
theorem c8_frame_witness :
    (∃ key_id new_rr,
        demoCall8.replication.as_replication_source =
          some ⟨some key_id, currentSourceRules demoNoKeyBucket ++ [new_rr]⟩) ∧
    demoCall8.replication.as_replication_destination =
      currentDestinationConfiguration demoNoKeyBucket :=
  c8_setup_source_frame demoNoKeyBucket demoDestBucket none none none false
    demoCall8 rfl

/-- Claim C9: `setup_destination` keeps the bucket's source-side configuration
untouched, and the submitted mapping is the old mapping with only the entry for
`source_key_id` inserted or overwritten to the resolved destination key id;
every other entry, including stale ones, remains. -/
theorem c9_setup_destination_frame (source_key_id : String)
    (destination_bucket : Bucket) :
    (setup_destination source_key_id destination_bucket).replication.as_replication_source =
      sourceConfigurationOfBucket destination_bucket ∧
    ∃ dc, (setup_destination source_key_id
          destination_bucket).replication.as_replication_destination = some dc ∧
      dc.source_to_destination_key_mapping =
        dictSet (destinationConfigurationOrEmpty
            destination_bucket).source_to_destination_key_mapping
          source_key_id
          (_get_destination_key destination_bucket.api destination_bucket
            (destinationConfigurationOrEmpty destination_bucket)).2.id_ ∧
      dictGet dc.source_to_destination_key_mapping source_key_id =
        some (_get_destination_key destination_bucket.api destination_bucket
          (destinationConfigurationOrEmpty destination_bucket)).2.id_ ∧
      ∀ q, q ≠ source_key_id →
        dictGet dc.source_to_destination_key_mapping q =
          dictGet (destinationConfigurationOrEmpty
            destination_bucket).source_to_destination_key_mapping q := by
  refine ⟨rfl, ⟨_, rfl, rfl, ?_, ?_⟩⟩
  · exact dictGet_dictSet_self _ _ _
  · intro q hq
    exact dictGet_dictSet_other _ _ _ q hq

/-- Witness for C9 at a concrete destination bucket with one stale mapping
entry. -/
theorem c9_frame_witness :
    (setup_destination "key-a" demoMappedDestBucket).replication.as_replication_source =
      sourceConfigurationOfBucket demoMappedDestBucket ∧
    ∃ dc, (setup_destination "key-a"
          demoMappedDestBucket).replication.as_replication_destination = some dc ∧
      dc.source_to_destination_key_mapping =
        dictSet (destinationConfigurationOrEmpty
            demoMappedDestBucket).source_to_destination_key_mapping
          "key-a"
          (_get_destination_key demoMappedDestBucket.api demoMappedDestBucket
            (destinationConfigurationOrEmpty demoMappedDestBucket)).2.id_ ∧
      dictGet dc.source_to_destination_key_mapping "key-a" =
        some (_get_destination_key demoMappedDestBucket.api demoMappedDestBucket
          (destinationConfigurationOrEmpty demoMappedDestBucket)).2.id_ ∧
      ∀ q, q ≠ "key-a" →
        dictGet dc.source_to_destination_key_mapping q =
          dictGet (destinationConfigurationOrEmpty
            demoMappedDestBucket).source_to_destination_key_mapping q :=
  c9_setup_destination_frame "key-a" demoMappedDestBucket

/-- Claim C10: the candidate loop of `_get_new_rule_name`, started at suffix
position 0, terminates within `(number of current rules) + 1` iterations: the
fuelled loop with that fuel always returns a candidate. -/
theorem c10_rule_name_loop_terminates (current_rules : List ReplicationRule)
    (dest : String) :
    (findRuleNameFrom (current_rules.map (fun rr => rr.name)) dest 0
      (current_rules.length + 1)).isSome = true := by
  have hx := findRuleNameFrom_isSome (current_rules.map (fun rr => rr.name)) dest
  rwa [List.length_map] at hx

end ReplicationSetupHelper

end B2Repl
